import Mathlib

/-!
Shallow embedding of the social-platform adapter layer
(src/lib/social/platforms/facebook.platform.ts and
src/lib/social/platforms/instagram.platform.ts).

Modelling conventions:
* Network I/O is made explicit: each adapter method takes the JSON payloads
  that its fetch calls would observe as extra parameters (an oracle), and
  methods whose claims concern the request sequence additionally return the
  list of requests they issued, in order.
* A JSON field that may be absent (JS undefined) is an Option; the JS
  nullish-coalescing operator a ?? b is jsOr / Option.getD.
* JS numbers occurring in metric arithmetic are modelled as rationals, and
  epoch-millisecond timestamps as integers.
* TS throw of a PlatformError is Except.error; resolving is Except.ok.
-/

/-- A provider error payload: an object with at least a message and an
optional numeric code (spec section 6). -/
structure ErrObj where
  message : String
  code : Option Int
  deriving DecidableEq, Repr

/-- The provider-tagged failure type from lib/utils/errors: platform name,
message, and the optional raw error payload passed as third argument. -/
structure PlatformError where
  platform : String
  message : String
  raw : Option ErrObj
  deriving DecidableEq, Repr

/-- Response shape of the token-exchange endpoints: access_token and
expires_in on success, an error object on failure. -/
structure TokenResponse where
  error : Option ErrObj
  access_token : Option String
  expires_in : Option Int
  deriving DecidableEq, Repr

/-- TokenPair from base.platform. accessToken is an Option because the JS
code copies a possibly-absent JSON field without checking it. expiresAt is
an epoch-millisecond timestamp. -/
structure TokenPair where
  accessToken : Option String
  expiresAt : Int
  scopes : List String
  deriving DecidableEq, Repr

/-- JS nullish coalescing a ?? b on two optional values. -/
def jsOr {α : Type} : Option α → Option α → Option α
  | some x, _ => some x
  | none, b => b

/-- FacebookPlatform.handleCallback: exchange the code for a short-lived
token, then for a long-lived one; an error object at either step throws a
provider-tagged error (the first throw attaches the raw payload). -/
def FacebookPlatform.handleCallback (now : Int) (shortResp longResp : TokenResponse) :
    Except PlatformError TokenPair :=
  match shortResp.error with
  | some e => Except.error ⟨"facebook", e.message, some e⟩
  | none =>
    match longResp.error with
    | some e => Except.error ⟨"facebook", e.message, none⟩
    | none =>
      Except.ok
        { accessToken := longResp.access_token
          expiresAt := now + (longResp.expires_in.getD 5184000) * 1000
          scopes := ["pages_manage_posts", "pages_read_engagement", "read_insights"] }

/-- FacebookPlatform.refreshToken: re-runs the long-lived exchange on the
existing token. -/
def FacebookPlatform.refreshToken (now : Int) (resp : TokenResponse) :
    Except PlatformError TokenPair :=
  match resp.error with
  | some e => Except.error ⟨"facebook", e.message, none⟩
  | none =>
    Except.ok
      { accessToken := resp.access_token
        expiresAt := now + (resp.expires_in.getD 5184000) * 1000
        scopes := ["pages_manage_posts", "pages_read_engagement"] }

/-- InstagramPlatform.handleCallback: checks the error object of the first
exchange only; the long-lived response is used unchecked, falling back to
the short-lived access token when the long-lived one is absent. -/
def InstagramPlatform.handleCallback (now : Int) (shortResp longResp : TokenResponse) :
    Except PlatformError TokenPair :=
  match shortResp.error with
  | some e => Except.error ⟨"instagram", e.message, none⟩
  | none =>
    Except.ok
      { accessToken := jsOr longResp.access_token shortResp.access_token
        expiresAt := now + (longResp.expires_in.getD 5184000) * 1000
        scopes := ["instagram_basic", "instagram_content_publish", "instagram_manage_insights"] }

/-- InstagramPlatform.refreshToken. -/
def InstagramPlatform.refreshToken (now : Int) (resp : TokenResponse) :
    Except PlatformError TokenPair :=
  match resp.error with
  | some e => Except.error ⟨"instagram", e.message, none⟩
  | none =>
    Except.ok
      { accessToken := resp.access_token
        expiresAt := now + (resp.expires_in.getD 5184000) * 1000
        scopes := ["instagram_basic", "instagram_content_publish"] }

/-! ### OAuth authorize URL and the anti-forgery state (getAuthUrl) -/

/-- The lowercase hexadecimal digit for a nibble value below 16. -/
def hexDigit (n : Nat) : Char :=
  if n < 10 then Char.ofNat (48 + n) else Char.ofNat (87 + n)

/-- Node Buffer.toString of a byte list in hex encoding: high nibble then
low nibble of each byte, lowercase. Nibbles are taken modulo 16, which is
the identity on actual bytes. -/
def bytesToHex : List Nat → List Char
  | [] => []
  | b :: rest => hexDigit (b / 16 % 16) :: hexDigit (b % 16) :: bytesToHex rest

/-- The lowercase hex alphabet. -/
def hexAlphabet : List Char := "0123456789abcdef".toList

/-- OAuthUrl from base.platform, with text as character lists so that the
state-parsing claims can be settled by list reasoning. -/
structure OAuthUrl where
  url : List Char
  state : List Char
  deriving DecidableEq, Repr

/-- FacebookPlatform.getAuthUrl. The app id comes from the environment and
the random bytes from crypto.randomBytes(16), both passed explicitly;
encodeURIComponent is an opaque parameter since no claim depends on it. -/
def FacebookPlatform.getAuthUrl (appId : List Char) (randomBytes : List Nat)
    (encode : List Char → List Char) (userId redirectUri : List Char) : OAuthUrl :=
  let state := bytesToHex randomBytes ++ ':' :: userId
  let scopes := List.intercalate (",".toList)
    (["public_profile", "pages_show_list", "pages_read_engagement",
      "pages_manage_posts"].map String.toList)
  { url := "https://www.facebook.com/v21.0/dialog/oauth?client_id=".toList ++ appId
      ++ "&redirect_uri=".toList ++ encode redirectUri
      ++ "&state=".toList ++ state
      ++ "&scope=".toList ++ scopes
      ++ "&response_type=code".toList
    state := state }

/-- InstagramPlatform.getAuthUrl: identical construction with the
development-mode scope list. -/
def InstagramPlatform.getAuthUrl (appId : List Char) (randomBytes : List Nat)
    (encode : List Char → List Char) (userId redirectUri : List Char) : OAuthUrl :=
  let state := bytesToHex randomBytes ++ ':' :: userId
  let scopes := List.intercalate (",".toList)
    (["public_profile", "pages_show_list", "pages_read_engagement"].map String.toList)
  { url := "https://www.facebook.com/v21.0/dialog/oauth?client_id=".toList ++ appId
      ++ "&redirect_uri=".toList ++ encode redirectUri
      ++ "&state=".toList ++ state
      ++ "&scope=".toList ++ scopes
      ++ "&response_type=code".toList
    state := state }

/-- The suffix of a string after its final colon (the whole string when no
colon occurs), as used by the spec to recover the user id from state. -/
def suffixAfterLastColon (s : List Char) : List Char :=
  (s.reverse.takeWhile (fun c => c != ':')).reverse

/-- The suffix of a string after its first colon. -/
def suffixAfterFirstColon (s : List Char) : List Char :=
  (s.dropWhile (fun c => c != ':')).drop 1

theorem takeWhile_append_stop {α : Type} (p : α → Bool) (l : List α) (x : α) (r : List α)
    (hl : ∀ c ∈ l, p c = true) (hx : p x = false) :
    List.takeWhile p (l ++ x :: r) = l := by
  induction l with
  | nil => simp [List.takeWhile_cons, hx]
  | cons a as ih =>
    have ha : p a = true := hl a (List.mem_cons_self a as)
    simp only [List.cons_append, List.takeWhile_cons, ha]
    simp [ih fun c hc => hl c (List.mem_cons_of_mem a hc)]

theorem dropWhile_append_stop {α : Type} (p : α → Bool) (l : List α) (x : α) (r : List α)
    (hl : ∀ c ∈ l, p c = true) (hx : p x = false) :
    List.dropWhile p (l ++ x :: r) = x :: r := by
  induction l with
  | nil => simp [List.dropWhile_cons, hx]
  | cons a as ih =>
    have ha : p a = true := hl a (List.mem_cons_self a as)
    simp only [List.cons_append, List.dropWhile_cons, ha]
    simp [ih fun c hc => hl c (List.mem_cons_of_mem a hc)]

theorem hexDigit_mem_hexAlphabet : ∀ n < 16, hexDigit n ∈ hexAlphabet := by decide

theorem bytesToHex_mem (bs : List Nat) : ∀ c ∈ bytesToHex bs, c ∈ hexAlphabet := by
  induction bs with
  | nil => intro c hc; cases hc
  | cons b rest ih =>
    intro c hc
    simp only [bytesToHex, List.mem_cons] at hc
    rcases hc with h | h | h
    · exact h ▸ hexDigit_mem_hexAlphabet _ (Nat.mod_lt _ (by decide))
    · exact h ▸ hexDigit_mem_hexAlphabet _ (Nat.mod_lt _ (by decide))
    · exact ih c h

theorem bytesToHex_length (bs : List Nat) : (bytesToHex bs).length = 2 * bs.length := by
  induction bs with
  | nil => rfl
  | cons b rest ih => simp [bytesToHex, ih]; ring

theorem mem_hexAlphabet_ne_colon : ∀ c ∈ hexAlphabet, (c != ':') = true := by decide

theorem bytesToHex_no_colon (bs : List Nat) : ∀ c ∈ bytesToHex bs, (c != ':') = true :=
  fun c hc => mem_hexAlphabet_ne_colon c (bytesToHex_mem bs c hc)

/-! ### Account resolution (getAccount) -/

/-- picture.data.url nesting of a Graph profile picture. -/
structure FBPictureData where
  url : Option String
  deriving DecidableEq, Repr

/-- A Graph picture field. -/
structure FBPicture where
  data : Option FBPictureData
  deriving DecidableEq, Repr

/-- One entry of the me/accounts list as requested by FacebookPlatform:
id,name,category,picture,access_token. -/
structure FBPage where
  id : String
  name : String
  category : Option String
  picture : Option FBPicture
  access_token : Option String
  deriving DecidableEq, Repr

/-- Response of the Facebook me/accounts query. -/
structure FBPagesResponse where
  error : Option ErrObj
  data : Option (List FBPage)
  deriving DecidableEq, Repr

/-- Response of the Facebook me profile query. -/
structure FBProfileResponse where
  error : Option ErrObj
  id : String
  name : String
  picture : Option FBPicture
  deriving DecidableEq, Repr

/-- PlatformAccount from base.platform. -/
structure PlatformAccount where
  platformAccountId : String
  accountName : String
  accountType : String
  avatarUrl : Option String
  pageAccessToken : Option String
  deriving DecidableEq, Repr

/-- FacebookPlatform.getAccount: first page of me/accounts when any,
otherwise the personal profile; either fetch's error object throws. -/
def FacebookPlatform.getAccount (pagesResp : FBPagesResponse)
    (profileResp : FBProfileResponse) : Except PlatformError PlatformAccount :=
  match pagesResp.error with
  | some e => Except.error ⟨"facebook", e.message, none⟩
  | none =>
    match pagesResp.data.bind List.head? with
    | some page =>
      Except.ok
        { platformAccountId := page.id
          accountName := page.name
          accountType := "page"
          avatarUrl := (page.picture.bind FBPicture.data).bind FBPictureData.url
          pageAccessToken := page.access_token }
    | none =>
      match profileResp.error with
      | some e => Except.error ⟨"facebook", e.message, none⟩
      | none =>
        Except.ok
          { platformAccountId := profileResp.id
            accountName := profileResp.name ++ " (perfil)"
            accountType := "profile"
            avatarUrl := (profileResp.picture.bind FBPicture.data).bind FBPictureData.url
            pageAccessToken := none }

/-- An instagram_business_account object on a page. -/
structure IGBusinessAccount where
  id : String
  username : Option String
  profile_picture_url : Option String
  deriving DecidableEq, Repr

/-- One entry of the me/accounts list as requested by InstagramPlatform. -/
structure IGPage where
  id : String
  name : String
  instagram_business_account : Option IGBusinessAccount
  deriving DecidableEq, Repr

/-- Response of the Instagram me/accounts query. -/
structure IGPagesResponse where
  error : Option ErrObj
  data : Option (List IGPage)
  deriving DecidableEq, Repr

/-- The for-loop of InstagramPlatform.getAccount: the first page carrying an
instagram_business_account, together with that account. -/
def igFirstBusiness : List IGPage → Option (IGPage × IGBusinessAccount)
  | [] => none
  | p :: rest =>
    match p.instagram_business_account with
    | some ig => some (p, ig)
    | none => igFirstBusiness rest

/-- The no-eligible-account message thrown by InstagramPlatform.getAccount. -/
def igNoAccountMessage : String :=
  "No se encontró una cuenta de Instagram Business conectada a tus páginas de Facebook."

/-- InstagramPlatform.getAccount: scan the pages for the first one with an
instagram_business_account; fail with a descriptive error when none has
one. No page-scoped token is attached. -/
def InstagramPlatform.getAccount (pagesResp : IGPagesResponse) :
    Except PlatformError PlatformAccount :=
  match pagesResp.error with
  | some e => Except.error ⟨"instagram", e.message, none⟩
  | none =>
    match igFirstBusiness (pagesResp.data.getD []) with
    | some (page, ig) =>
      Except.ok
        { platformAccountId := ig.id
          accountName := ig.username.getD page.name
          accountType := "business"
          avatarUrl := ig.profile_picture_url
          pageAccessToken := none }
    | none => Except.error ⟨"instagram", igNoAccountMessage, none⟩

/-! ### Content rendering and the publish protocol -/

/-- PlatformContent from base.platform. -/
structure PlatformContent where
  caption : String
  hashtags : List String
  mediaUrl : Option String
  mediaType : Option String
  accountId : Option String
  deriving DecidableEq, Repr

/-- The rendered caption: caption, blank line, hashtags each given a
leading hash unless already present, joined by spaces. -/
def renderCaption (content : PlatformContent) : String :=
  content.caption ++ "\n\n" ++
    String.intercalate (" ")
      (content.hashtags.map fun h => if h.startsWith ("#") then h else ("#") ++ h)

/-- JS truthiness of a possibly-absent string: present and non-empty. -/
def truthy : Option String → Bool
  | none => false
  | some s => s != ""

/-- PublishResult from base.platform. platformPostId is an Option because
the JS code copies a possibly-absent JSON field. -/
structure PublishResult where
  platformPostId : Option String
  platformPostUrl : String
  deriving DecidableEq, Repr

/-- A possibly-absent string rendered into a JS template literal. -/
def jsStr : Option String → String
  | some s => s
  | none => "undefined"

/-- The endpoint chosen by FacebookPlatform.publishContent. -/
inductive FBPublishEndpoint where
  | photos (target : String)
  | videos (target : String)
  | feed (target : String)
  deriving DecidableEq, Repr

/-- The endpoint and request body built by FacebookPlatform.publishContent:
photos for truthy media of type image, videos for type video, else the
plain feed endpoint whose body carries only the caption and access token. -/
def FacebookPlatform.publishRequest (accessToken : String) (content : PlatformContent) :
    FBPublishEndpoint × List (String × String) :=
  let caption := renderCaption content
  let target := content.accountId.getD ("me")
  if truthy content.mediaUrl = true ∧ content.mediaType = some ("image") then
    (FBPublishEndpoint.photos target,
      [("url", jsStr content.mediaUrl), ("message", caption), ("access_token", accessToken)])
  else if truthy content.mediaUrl = true ∧ content.mediaType = some ("video") then
    (FBPublishEndpoint.videos target,
      [("file_url", jsStr content.mediaUrl), ("description", caption),
        ("access_token", accessToken)])
  else
    (FBPublishEndpoint.feed target, [("message", caption), ("access_token", accessToken)])

/-- Response of a Facebook publish call: id for photos/videos, post_id for
feed posts, or an error object. -/
structure FBPublishResponse where
  error : Option ErrObj
  id : Option String
  post_id : Option String
  deriving DecidableEq, Repr

/-- FacebookPlatform.publishContent: submit the request built by
publishRequest and parse the returned identifier into a PublishResult. -/
def FacebookPlatform.publishContent (accessToken : String) (content : PlatformContent)
    (resp : FBPublishResponse) : Except PlatformError PublishResult :=
  let _request := FacebookPlatform.publishRequest accessToken content
  match resp.error with
  | some e => Except.error ⟨"facebook", e.message, some e⟩
  | none =>
    let postId := jsOr resp.id resp.post_id
    Except.ok
      { platformPostId := postId
        platformPostUrl := "https://www.facebook.com/" ++ jsStr postId }

/-! ### Instagram two-phase publish with request trace -/

/-- Response of the Instagram media-container creation call. -/
structure IGContainerResponse where
  error : Option ErrObj
  id : Option String
  deriving DecidableEq, Repr

/-- Response of the Instagram media_publish call. -/
structure IGPublishResponse where
  error : Option ErrObj
  id : Option String
  deriving DecidableEq, Repr

/-- The network requests InstagramPlatform.publishContent can issue, in the
order they appear in the returned trace. -/
inductive IGReq where
  | pages
  | media (igId : String) (params : List (String × String))
  | mediaPublish (igId : String) (body : List (String × String))
  deriving DecidableEq, Repr

/-- The container-then-publish tail of InstagramPlatform.publishContent,
entered once the account is resolved and the container params are built.
The trace starts with the pages request already issued by getAccount. -/
def igPublishSteps (accessToken igId : String) (params : List (String × String))
    (containerResp : IGContainerResponse) (publishResp : IGPublishResponse) :
    Except PlatformError PublishResult × List IGReq :=
  match containerResp.error with
  | some e => (Except.error ⟨"instagram", e.message, none⟩, [IGReq.pages, IGReq.media igId params])
  | none =>
    let containerId := containerResp.id
    let publishBody := [("creation_id", jsStr containerId), ("access_token", accessToken)]
    match publishResp.error with
    | some e =>
      (Except.error ⟨"instagram", e.message, none⟩,
        [IGReq.pages, IGReq.media igId params, IGReq.mediaPublish igId publishBody])
    | none =>
      (Except.ok
          { platformPostId := publishResp.id
            platformPostUrl := "https://www.instagram.com/p/" ++ jsStr publishResp.id },
        [IGReq.pages, IGReq.media igId params, IGReq.mediaPublish igId publishBody])

/-- The validation message thrown when Instagram content carries no media. -/
def igNoMediaMessage : String :=
  "Instagram requiere un media (imagen o video) para publicar."

/-- InstagramPlatform.publishContent: resolve the account (a network call),
then build the container params, throwing the validation error when the
content carries no truthy mediaUrl, then create and publish the container.
Also returns the list of requests issued, in order. -/
def InstagramPlatform.publishContent (accessToken : String) (content : PlatformContent)
    (pagesResp : IGPagesResponse) (containerResp : IGContainerResponse)
    (publishResp : IGPublishResponse) : Except PlatformError PublishResult × List IGReq :=
  match InstagramPlatform.getAccount pagesResp with
  | Except.error e => (Except.error e, [IGReq.pages])
  | Except.ok account =>
    let igId := account.platformAccountId
    let caption := renderCaption content
    let base := [("caption", caption), ("access_token", accessToken)]
    if truthy content.mediaUrl = true ∧ content.mediaType = some ("video") then
      igPublishSteps accessToken igId
        (base ++ [("media_type", "REELS"), ("video_url", jsStr content.mediaUrl)])
        containerResp publishResp
    else if truthy content.mediaUrl = true then
      igPublishSteps accessToken igId
        (base ++ [("image_url", jsStr content.mediaUrl)]) containerResp publishResp
    else
      (Except.error ⟨"instagram", igNoMediaMessage, none⟩, [IGReq.pages])

/-! ### Metrics normalization -/

/-- PostMetrics from base.platform; JS numbers as rationals. -/
structure PostMetrics where
  views : ℚ
  likes : ℚ
  comments : ℚ
  shares : ℚ
  saves : ℚ
  watchTimeSeconds : ℚ
  avgWatchPercent : ℚ
  reachUnique : ℚ
  impressions : ℚ
  engagementRate : ℚ
  deriving DecidableEq, Repr

/-- AccountMetrics from base.platform. -/
structure AccountMetrics where
  followers : ℚ
  followersGrowth : ℚ
  totalViews : ℚ
  totalWatchMinutes : ℚ
  avgEngagementRate : ℚ
  deriving DecidableEq, Repr

/-- The all-zero PostMetrics record. -/
def zeroPostMetrics : PostMetrics :=
  { views := 0, likes := 0, comments := 0, shares := 0, saves := 0, watchTimeSeconds := 0
    avgWatchPercent := 0, reachUnique := 0, impressions := 0, engagementRate := 0 }

/-- The all-zero AccountMetrics record. -/
def zeroAccountMetrics : AccountMetrics :=
  { followers := 0, followersGrowth := 0, totalViews := 0, totalWatchMinutes := 0
    avgEngagementRate := 0 }

/-- JS substring test a.includes(b). -/
def strIncludes (s sub : String) : Bool := decide (sub.toList <:+: s.toList)

/-- JS single-character containment test a.includes(c). -/
def strIncludesChar (s : String) (c : Char) : Bool := s.toList.any (fun x => x == c)

/-- An insight value item.values[0].value: a number, a breakdown object
whose numeric values are summed, or anything else (ignored). The obj case
keeps only the object's values, numeric ones as some. -/
inductive InsightVal where
  | num (n : ℚ)
  | obj (vals : List (Option ℚ))
  | missing
  deriving DecidableEq, Repr

/-- One element of the insights data array. -/
structure InsightItem where
  name : String
  val : InsightVal
  deriving DecidableEq, Repr

/-- Response of the Facebook post insights query. -/
structure InsightsResponse where
  error : Option ErrObj
  data : Option (List InsightItem)
  deriving DecidableEq, Repr

/-- The number an insight value contributes to the metrics record: the
number itself, or the sum of a breakdown object's numeric values, or
nothing. -/
def insightValToNum : InsightVal → Option ℚ
  | InsightVal.num n => some n
  | InsightVal.obj vals => some (vals.foldl (fun s v => s + v.getD 0) 0)
  | InsightVal.missing => none

/-- The metrics record built by the insights loop, as an association list
with the most recent write first. -/
def buildMetrics (items : List InsightItem) : List (String × ℚ) :=
  items.foldl
    (fun acc it =>
      match insightValToNum it.val with
      | some v => (it.name, v) :: acc
      | none => acc) []

/-- Lookup in a metrics record. -/
def metricsGet (m : List (String × ℚ)) (k : String) : Option ℚ :=
  (m.find? (fun p => p.1 == k)).map (fun p => p.2)

/-- The requests FacebookPlatform.getPostMetrics can issue. -/
inductive FBMetricsReq where
  | insights (postId : String)
  | social (postId : String) (fields : String)
  deriving DecidableEq, Repr

/-- The insights phase of FacebookPlatform.getPostMetrics: attempted only
for compound page-post ids; a thrown fetch, an error object or missing data
leave (impressions, reach, engagedUsers) at zero. -/
def fbInsightsPhase (postId : String) (insResp : Except String InsightsResponse) :
    (ℚ × ℚ × ℚ) × List FBMetricsReq :=
  if strIncludesChar postId '_' = true then
    match insResp with
    | Except.error _ => ((0, 0, 0), [FBMetricsReq.insights postId])
    | Except.ok d =>
      if d.error.isSome then ((0, 0, 0), [FBMetricsReq.insights postId])
      else
        match d.data with
        | some items =>
          let m := buildMetrics items
          (((metricsGet m ("post_impressions")).getD 0,
            (metricsGet m ("post_impressions_unique")).getD 0,
            (metricsGet m ("post_engaged_users")).getD 0),
            [FBMetricsReq.insights postId])
        | none => ((0, 0, 0), [FBMetricsReq.insights postId])
  else ((0, 0, 0), [])

/-- A reactions/comments edge with a summary total_count. -/
structure SocialSummary where
  total_count : Option ℚ
  deriving DecidableEq, Repr

/-- The summary wrapper of a social edge. -/
structure SocialEdge where
  summary : Option SocialSummary
  deriving DecidableEq, Repr

/-- The shares field of a page post. -/
structure SharesObj where
  count : Option ℚ
  deriving DecidableEq, Repr

/-- Response of the Facebook social-engagement node query. -/
structure SocialResponse where
  error : Option ErrObj
  reactions : Option SocialEdge
  comments : Option SocialEdge
  shares : Option SharesObj
  deriving DecidableEq, Repr

/-- The social field list including shares, used first for page posts. -/
def fieldsWithShares : String :=
  "reactions.limit(0).summary(true),comments.limit(0).summary(true),shares"

/-- The social field list without shares. -/
def fieldsNoShares : String :=
  "reactions.limit(0).summary(true),comments.limit(0).summary(true)"

/-- The field list of the first social query for a post id. -/
def fbFirstSocialFields (postId : String) : String :=
  if strIncludesChar postId '_' = true then fieldsWithShares else fieldsNoShares

/-- Whether a social response triggers the one retry without the shares
field: its error message includes the text nonexisting field. -/
def needsSharesRetry (s : SocialResponse) : Bool :=
  match s.error with
  | some e => strIncludes e.message ("nonexisting field")
  | none => false

/-- The (likes, comments, shares) counts read from a social response, zero
when it still carries an error object. -/
def socialCounts (s : SocialResponse) : ℚ × ℚ × ℚ :=
  if s.error.isSome then (0, 0, 0)
  else
    (((s.reactions.bind SocialEdge.summary).bind SocialSummary.total_count).getD 0,
      ((s.comments.bind SocialEdge.summary).bind SocialSummary.total_count).getD 0,
      (s.shares.bind SharesObj.count).getD 0)

/-- The social phase of FacebookPlatform.getPostMetrics: one query, retried
exactly once without the shares field when the response's error message
includes nonexisting field; a thrown fetch leaves all counts at zero. -/
def fbSocialPhase (postId : String) (r1 r2 : Except String SocialResponse) :
    (ℚ × ℚ × ℚ) × List FBMetricsReq :=
  let f1 := fbFirstSocialFields postId
  match r1 with
  | Except.error _ => ((0, 0, 0), [FBMetricsReq.social postId f1])
  | Except.ok s1 =>
    if needsSharesRetry s1 = true then
      match r2 with
      | Except.error _ =>
        ((0, 0, 0), [FBMetricsReq.social postId f1, FBMetricsReq.social postId fieldsNoShares])
      | Except.ok s2 =>
        (socialCounts s2,
          [FBMetricsReq.social postId f1, FBMetricsReq.social postId fieldsNoShares])
    else (socialCounts s1, [FBMetricsReq.social postId f1])

/-- FacebookPlatform.getPostMetrics: insights phase, social phase, the
interaction-sum fallback for impressions, and the computed engagement
rate. Returns the metrics record and the requests issued. -/
def FacebookPlatform.getPostMetrics (postId : String)
    (insResp : Except String InsightsResponse) (r1 r2 : Except String SocialResponse) :
    PostMetrics × List FBMetricsReq :=
  let insOut := fbInsightsPhase postId insResp
  let socOut := fbSocialPhase postId r1 r2
  let impressions0 := insOut.1.1
  let reach := insOut.1.2.1
  let engagedUsers := insOut.1.2.2
  let likes := socOut.1.1
  let comments := socOut.1.2.1
  let shares := socOut.1.2.2
  let totalInteractions := likes + comments + shares
  let impressions :=
    if impressions0 = 0 ∧ 0 < totalInteractions then totalInteractions else impressions0
  ({ views := impressions, likes := likes, comments := comments, shares := shares
     saves := 0, watchTimeSeconds := 0, avgWatchPercent := 0, reachUnique := reach
     impressions := impressions
     engagementRate := if 0 < reach then engagedUsers / reach * 100 else 0 },
    insOut.2 ++ socOut.2)

/-- One element of the Instagram insights data array: the code reads
item.values[0].value with a zero default. -/
structure IGInsightItem where
  name : String
  value : Option ℚ
  deriving DecidableEq, Repr

/-- Response of the Instagram post insights query; its error object is
never inspected by the code. -/
structure IGInsightsResponse where
  error : Option ErrObj
  data : Option (List IGInsightItem)
  deriving DecidableEq, Repr

/-- The metrics record built by the Instagram insights loop. -/
def igBuildMetrics (items : List IGInsightItem) : List (String × ℚ) :=
  items.foldl (fun acc it => (it.name, it.value.getD 0) :: acc) []

/-- Instagram engaged-users stand-in: the insights query of
InstagramPlatform.getPostMetrics requests no engaged-users metric, so under
the zero-default policy its value is identically 0. -/
def igEngagedUsers : ℚ := 0

/-- InstagramPlatform.getPostMetrics: one insights query whose fields are
copied with zero defaults; no error propagation and a hard-coded zero
engagement rate. -/
def InstagramPlatform.getPostMetrics (resp : IGInsightsResponse) : PostMetrics :=
  let m := igBuildMetrics (resp.data.getD [])
  { views := (metricsGet m ("impressions")).getD 0
    likes := (metricsGet m ("likes")).getD 0
    comments := (metricsGet m ("comments")).getD 0
    shares := (metricsGet m ("shares")).getD 0
    saves := (metricsGet m ("saved")).getD 0
    watchTimeSeconds := 0
    avgWatchPercent := 0
    reachUnique := (metricsGet m ("reach")).getD 0
    impressions := (metricsGet m ("impressions")).getD 0
    engagementRate := 0 }

/-- Response of the Facebook account fields query. -/
structure FBAccountFieldsResponse where
  error : Option ErrObj
  followers_count : Option ℚ
  fan_count : Option ℚ
  deriving DecidableEq, Repr

/-- FacebookPlatform.getAccountMetrics: throws on a provider error object,
otherwise followers_count with fan_count fallback and zero defaults. -/
def FacebookPlatform.getAccountMetrics (resp : FBAccountFieldsResponse) :
    Except PlatformError AccountMetrics :=
  match resp.error with
  | some e => Except.error ⟨"facebook", e.message, none⟩
  | none =>
    Except.ok
      { followers := (jsOr resp.followers_count resp.fan_count).getD 0
        followersGrowth := 0, totalViews := 0, totalWatchMinutes := 0, avgEngagementRate := 0 }

/-- Response of the Instagram account fields query. -/
structure IGAccountFieldsResponse where
  error : Option ErrObj
  followers_count : Option ℚ
  media_count : Option ℚ
  deriving DecidableEq, Repr

/-- InstagramPlatform.getAccountMetrics: never inspects the error object;
followers_count with a zero default. -/
def InstagramPlatform.getAccountMetrics (resp : IGAccountFieldsResponse) : AccountMetrics :=
  { followers := resp.followers_count.getD 0
    followersGrowth := 0, totalViews := 0, totalWatchMinutes := 0, avgEngagementRate := 0 }

/-! ### Claim C1: error propagation in handleCallback -/

/-- Claim C1, counterexample: on Instagram, a provider error payload at the
long-lived exchange does not make handleCallback fail; the call silently
returns a TokenPair built from the short-lived token, so the claim as
stated is false. -/
theorem instagram_handleCallback_ignores_long_exchange_error :
    InstagramPlatform.handleCallback 0
        ⟨none, some ("SHORT"), some 100⟩
        ⟨some ⟨("token expired"), some 190⟩, none, none⟩ =
      Except.ok
        { accessToken := some ("SHORT")
          expiresAt := 5184000000
          scopes := ["instagram_basic", "instagram_content_publish",
            "instagram_manage_insights"] } := by
  rfl

/-- Claim C1, amended: Facebook handleCallback fails with a provider-tagged
error carrying the provider message when either exchange returns an error
payload; Instagram handleCallback does so only for the first exchange,
while an error payload at the long-lived exchange is ignored and the call
returns a TokenPair whose token falls back to the short-lived one. -/
theorem handleCallback_error_propagation :
    (∀ (now : Int) (s l : TokenResponse) (e : ErrObj), s.error = some e →
        FacebookPlatform.handleCallback now s l =
          Except.error ⟨("facebook"), e.message, some e⟩) ∧
    (∀ (now : Int) (s l : TokenResponse) (e : ErrObj), s.error = none → l.error = some e →
        FacebookPlatform.handleCallback now s l =
          Except.error ⟨("facebook"), e.message, none⟩) ∧
    (∀ (now : Int) (s l : TokenResponse) (e : ErrObj), s.error = some e →
        InstagramPlatform.handleCallback now s l =
          Except.error ⟨("instagram"), e.message, none⟩) ∧
    (∀ (now : Int) (s l : TokenResponse), s.error = none →
        InstagramPlatform.handleCallback now s l =
          Except.ok
            { accessToken := jsOr l.access_token s.access_token
              expiresAt := now + (l.expires_in.getD 5184000) * 1000
              scopes := ["instagram_basic", "instagram_content_publish",
                "instagram_manage_insights"] }) := by
  refine ⟨?_, ?_, ?_, ?_⟩
  · intro now s l e hs
    simp [FacebookPlatform.handleCallback, hs]
  · intro now s l e hs hl
    simp [FacebookPlatform.handleCallback, hs, hl]
  · intro now s l e hs
    simp [InstagramPlatform.handleCallback, hs]
  · intro now s l hs
    simp [InstagramPlatform.handleCallback, hs]

/-- Claim C1, witness for the amended theorem at concrete inputs. -/
theorem handleCallback_error_propagation_witness :
    FacebookPlatform.handleCallback 7 ⟨some ⟨("bad code"), some 100⟩, none, none⟩
        ⟨none, none, none⟩ =
      Except.error ⟨("facebook"), ("bad code"), some ⟨("bad code"), some 100⟩⟩ ∧
    FacebookPlatform.handleCallback 7 ⟨none, some ("S"), none⟩
        ⟨some ⟨("cannot extend"), none⟩, none, none⟩ =
      Except.error ⟨("facebook"), ("cannot extend"), none⟩ ∧
    InstagramPlatform.handleCallback 7 ⟨none, some ("S"), none⟩
        ⟨some ⟨("cannot extend"), none⟩, none, none⟩ =
      Except.ok
        { accessToken := some ("S")
          expiresAt := 7 + 5184000 * 1000
          scopes := ["instagram_basic", "instagram_content_publish",
            "instagram_manage_insights"] } :=
  ⟨handleCallback_error_propagation.1 7 _ _ _ rfl,
    handleCallback_error_propagation.2.1 7 _ _ _ rfl rfl,
    handleCallback_error_propagation.2.2.2 7 _ _ rfl⟩

/-! ### Claim C2: media validation in the Instagram publish flow -/

/-- Claim C2, counterexample: content with no mediaUrl does fail with the
validation error, but only after the account-resolution network request has
been issued — the returned trace already contains the pages request, so the
claim that no request is issued before the media check is false. -/
theorem instagram_publish_validation_after_network :
    InstagramPlatform.publishContent ("TOK")
        ⟨("Hola"), [], none, none, none⟩
        ⟨none, some [⟨("p1"), ("Page One"), some ⟨("ig1"), some ("iguser"), none⟩⟩]⟩
        ⟨none, none⟩ ⟨none, none⟩ =
      (Except.error ⟨("instagram"), igNoMediaMessage, none⟩, [IGReq.pages]) := by
  rfl

/-- Claim C2, amended: for content with no truthy mediaUrl, once the
account-resolution request succeeds the Instagram publishContent fails with
the validation error, and the only request issued is that account
resolution — neither the container-creation nor the publish request is ever
attempted. -/
theorem instagram_publish_requires_media (accessToken : String)
    (content : PlatformContent) (pagesResp : IGPagesResponse)
    (containerResp : IGContainerResponse) (publishResp : IGPublishResponse)
    (acc : PlatformAccount)
    (hMedia : truthy content.mediaUrl = false)
    (hAcc : InstagramPlatform.getAccount pagesResp = Except.ok acc) :
    InstagramPlatform.publishContent accessToken content pagesResp containerResp publishResp =
      (Except.error ⟨("instagram"), igNoMediaMessage, none⟩, [IGReq.pages]) := by
  simp [InstagramPlatform.publishContent, hAcc, hMedia]

/-- Claim C2, witness for the amended theorem at concrete inputs. -/
theorem instagram_publish_requires_media_witness :
    truthy (none : Option String) = false ∧
    InstagramPlatform.getAccount
        ⟨none, some [⟨("p9"), ("Page Nine"), some ⟨("ig9"), none, none⟩⟩]⟩ =
      Except.ok
        { platformAccountId := ("ig9"), accountName := ("Page Nine")
          accountType := ("business"), avatarUrl := none, pageAccessToken := none } ∧
    InstagramPlatform.publishContent ("T")
        ⟨("Hey"), [("sol")], none, none, none⟩
        ⟨none, some [⟨("p9"), ("Page Nine"), some ⟨("ig9"), none, none⟩⟩]⟩
        ⟨none, none⟩ ⟨none, none⟩ =
      (Except.error ⟨("instagram"), igNoMediaMessage, none⟩, [IGReq.pages]) :=
  ⟨rfl, rfl,
    instagram_publish_requires_media ("T") ⟨("Hey"), [("sol")], none, none, none⟩
      ⟨none, some [⟨("p9"), ("Page Nine"), some ⟨("ig9"), none, none⟩⟩]⟩
      ⟨none, none⟩ ⟨none, none⟩ _ rfl rfl⟩

/-! ### Claim C3: the anti-forgery state and user id recovery -/

theorem suffixAfterLastColon_append (hex u : List Char)
    (hu : ∀ c ∈ u, (c != ':') = true) :
    suffixAfterLastColon (hex ++ ':' :: u) = u := by
  unfold suffixAfterLastColon
  have hrev : (hex ++ ':' :: u).reverse = u.reverse ++ ':' :: hex.reverse := by
    simp [List.reverse_append]
  rw [hrev,
    takeWhile_append_stop _ _ _ _ (fun c hc => hu c (List.mem_reverse.mp hc)) (by decide),
    List.reverse_reverse]

theorem suffixAfterFirstColon_append (hex u : List Char)
    (hhex : ∀ c ∈ hex, (c != ':') = true) :
    suffixAfterFirstColon (hex ++ ':' :: u) = u := by
  unfold suffixAfterFirstColon
  rw [dropWhile_append_stop _ _ _ _ hhex (by decide)]
  rfl

/-- Claim C3, counterexample: for a userId that itself contains a colon,
the suffix of the generated state after its final colon is not the input
userId — only the part after the userId's own last colon survives. -/
theorem state_final_colon_counterexample :
    suffixAfterLastColon
        ((FacebookPlatform.getAuthUrl [] (List.replicate 16 0) id (("a:b").toList) []).state) =
      ("b").toList ∧
    ("b").toList ≠ ("a:b").toList := by
  constructor
  · rfl
  · decide

/-- Claim C3, amended: on both adapters the state is the 32-character
lowercase-hex rendering of the 16 random bytes, a colon, then the userId;
the suffix after the first colon always recovers the userId, and the suffix
after the final colon recovers it whenever the userId itself contains no
colon. -/
theorem getAuthUrl_state_form (appId : List Char) (bs : List Nat)
    (encode : List Char → List Char) (userId redirectUri : List Char)
    (hlen : bs.length = 16)
    (hu : ∀ c ∈ userId, (c != ':') = true) :
    (FacebookPlatform.getAuthUrl appId bs encode userId redirectUri).state =
      bytesToHex bs ++ ':' :: userId ∧
    (InstagramPlatform.getAuthUrl appId bs encode userId redirectUri).state =
      bytesToHex bs ++ ':' :: userId ∧
    (bytesToHex bs).length = 32 ∧
    ((bytesToHex bs).all fun c => hexAlphabet.contains c) = true ∧
    suffixAfterLastColon
        ((FacebookPlatform.getAuthUrl appId bs encode userId redirectUri).state) = userId ∧
    suffixAfterLastColon
        ((InstagramPlatform.getAuthUrl appId bs encode userId redirectUri).state) = userId ∧
    suffixAfterFirstColon
        ((FacebookPlatform.getAuthUrl appId bs encode userId redirectUri).state) = userId := by
  refine ⟨rfl, rfl, ?_, ?_, ?_, ?_, ?_⟩
  · rw [bytesToHex_length, hlen]
  · rw [List.all_eq_true]
    intro c hc
    exact List.elem_iff.mpr (bytesToHex_mem bs c hc)
  · exact suffixAfterLastColon_append _ _ hu
  · exact suffixAfterLastColon_append _ _ hu
  · exact suffixAfterFirstColon_append _ _ (bytesToHex_no_colon bs)

/-- Claim C3, witness for the amended theorem at concrete inputs. -/
theorem getAuthUrl_state_form_witness :
    (List.replicate 16 171).length = 16 ∧
    suffixAfterLastColon
        ((FacebookPlatform.getAuthUrl (("app").toList) (List.replicate 16 171) id
            (("user-1").toList) (("https://x/cb").toList)).state) =
      ("user-1").toList ∧
    (bytesToHex (List.replicate 16 171)).length = 32 :=
  have h := getAuthUrl_state_form (("app").toList) (List.replicate 16 171) id
    (("user-1").toList) (("https://x/cb").toList) (by decide) (by decide)
  ⟨by decide, h.2.2.2.2.1, h.2.2.1⟩

/-! ### Claim C4: best-effort degradation of metrics sub-queries -/

/-- Claim C4, counterexample: FacebookPlatform.getAccountMetrics does
propagate a provider error object to the caller instead of returning a
zero-defaulted metrics record, so the claim as stated is false. -/
theorem facebook_getAccountMetrics_propagates_error :
    FacebookPlatform.getAccountMetrics ⟨some ⟨("rate limited"), some 4⟩, none, none⟩ =
      Except.error ⟨("facebook"), ("rate limited"), none⟩ := by
  rfl

/-- Claim C4, amended: getPostMetrics on both adapters degrades failing or
erroring sub-queries to zero-defaulted fields and never propagates a
provider error (both are total functions into PostMetrics), and Instagram's
getAccountMetrics likewise; Facebook's getAccountMetrics, by contrast,
fails with a provider-tagged error whenever the response carries an error
object. -/
theorem metrics_best_effort :
    (∀ (postId : String) (d : InsightsResponse) (e : ErrObj) (s1 : SocialResponse)
        (f : ErrObj) (r2 : Except String SocialResponse),
        d.error = some e → s1.error = some f →
        strIncludes f.message ("nonexisting field") = false →
        (FacebookPlatform.getPostMetrics postId (Except.ok d) (Except.ok s1) r2).1 =
          zeroPostMetrics) ∧
    (∀ resp : IGInsightsResponse, resp.data = none →
        InstagramPlatform.getPostMetrics resp = zeroPostMetrics) ∧
    (∀ resp : IGAccountFieldsResponse, resp.followers_count = none →
        InstagramPlatform.getAccountMetrics resp = zeroAccountMetrics) ∧
    (∀ (resp : FBAccountFieldsResponse) (e : ErrObj), resp.error = some e →
        FacebookPlatform.getAccountMetrics resp =
          Except.error ⟨("facebook"), e.message, none⟩) := by
  refine ⟨?_, ?_, ?_, ?_⟩
  · intro postId d e s1 f r2 hd hs hmsg
    by_cases hp : strIncludesChar postId '_' = true <;>
      simp [FacebookPlatform.getPostMetrics, fbInsightsPhase, fbSocialPhase, needsSharesRetry,
        socialCounts, hd, hs, hmsg, hp, zeroPostMetrics]
  · intro resp h
    simp [InstagramPlatform.getPostMetrics, h, igBuildMetrics, metricsGet, zeroPostMetrics]
  · intro resp h
    simp [InstagramPlatform.getAccountMetrics, h, zeroAccountMetrics]
  · intro resp e h
    simp [FacebookPlatform.getAccountMetrics, h]

/-- Claim C4, witness for the amended theorem at concrete inputs. -/
theorem metrics_best_effort_witness :
    (FacebookPlatform.getPostMetrics ("123_456")
        (Except.ok ⟨some ⟨("no insights"), some 100⟩, none⟩)
        (Except.ok ⟨some ⟨("unsupported"), some 10⟩, none, none, none⟩)
        (Except.error ("network down"))).1 = zeroPostMetrics ∧
    InstagramPlatform.getPostMetrics ⟨some ⟨("oops"), none⟩, none⟩ = zeroPostMetrics ∧
    InstagramPlatform.getAccountMetrics ⟨some ⟨("oops"), none⟩, none, none⟩ =
      zeroAccountMetrics ∧
    FacebookPlatform.getAccountMetrics ⟨some ⟨("oops"), none⟩, none, none⟩ =
      Except.error ⟨("facebook"), ("oops"), none⟩ :=
  ⟨metrics_best_effort.1 ("123_456") _ _ _ _ _ rfl rfl (by decide),
    metrics_best_effort.2.1 _ rfl,
    metrics_best_effort.2.2.1 _ rfl,
    metrics_best_effort.2.2.2 _ _ rfl⟩

/-! ### Claim C5: account resolution priority -/

/-- Claim C5, counterexample: with a non-empty pages list whose first page
carries no Instagram business entity, InstagramPlatform.getAccount returns
the second page's business identity, not the first page's identity, and
attaches no page-scoped access token. -/
theorem instagram_getAccount_counterexample :
    InstagramPlatform.getAccount
        ⟨none, some [⟨("p1"), ("Page One"), none⟩,
          ⟨("p2"), ("Page Two"), some ⟨("ig2"), some ("iguser2"), none⟩⟩]⟩ =
      Except.ok
        { platformAccountId := ("ig2"), accountName := ("iguser2")
          accountType := ("business"), avatarUrl := none, pageAccessToken := none } ∧
    (("ig2") : String) ≠ ("p1") := by
  exact ⟨rfl, by decide⟩

/-- Claim C5, amended: Facebook returns the first page of the pages list
with its page-scoped token attached and never the profile in that case,
falling back to the profile identity when the list is empty; Instagram
returns the first page carrying an Instagram business entity — skipping
pages without one — with no page-scoped token attached, and fails with the
descriptive no-eligible-account error when no page carries one. -/
theorem getAccount_resolution :
    (∀ (pagesResp : FBPagesResponse) (profileResp : FBProfileResponse) (page : FBPage),
        pagesResp.error = none → pagesResp.data.bind List.head? = some page →
        FacebookPlatform.getAccount pagesResp profileResp =
          Except.ok
            { platformAccountId := page.id, accountName := page.name
              accountType := ("page")
              avatarUrl := (page.picture.bind FBPicture.data).bind FBPictureData.url
              pageAccessToken := page.access_token }) ∧
    (∀ (pagesResp : FBPagesResponse) (profileResp : FBProfileResponse),
        pagesResp.error = none → pagesResp.data.bind List.head? = none →
        profileResp.error = none →
        FacebookPlatform.getAccount pagesResp profileResp =
          Except.ok
            { platformAccountId := profileResp.id
              accountName := profileResp.name ++ (" (perfil)")
              accountType := ("profile")
              avatarUrl := (profileResp.picture.bind FBPicture.data).bind FBPictureData.url
              pageAccessToken := none }) ∧
    (∀ (pagesResp : IGPagesResponse) (page : IGPage) (ig : IGBusinessAccount),
        pagesResp.error = none → igFirstBusiness (pagesResp.data.getD []) = some (page, ig) →
        InstagramPlatform.getAccount pagesResp =
          Except.ok
            { platformAccountId := ig.id, accountName := ig.username.getD page.name
              accountType := ("business"), avatarUrl := ig.profile_picture_url
              pageAccessToken := none }) ∧
    (∀ pagesResp : IGPagesResponse,
        pagesResp.error = none → igFirstBusiness (pagesResp.data.getD []) = none →
        InstagramPlatform.getAccount pagesResp =
          Except.error ⟨("instagram"), igNoAccountMessage, none⟩) := by
  refine ⟨?_, ?_, ?_, ?_⟩
  · intro pagesResp profileResp page h1 h2
    simp [FacebookPlatform.getAccount, h1, h2]
  · intro pagesResp profileResp h1 h2 h3
    simp [FacebookPlatform.getAccount, h1, h2, h3]
  · intro pagesResp page ig h1 h2
    simp [InstagramPlatform.getAccount, h1, h2]
  · intro pagesResp h1 h2
    simp [InstagramPlatform.getAccount, h1, h2]

/-- Claim C5, witness for the amended theorem at concrete inputs. -/
theorem getAccount_resolution_witness :
    FacebookPlatform.getAccount
        ⟨none, some [⟨("fp1"), ("My Page"), none, none, some ("PAGE-TOKEN")⟩]⟩
        ⟨none, ("u1"), ("User"), none⟩ =
      Except.ok
        { platformAccountId := ("fp1"), accountName := ("My Page")
          accountType := ("page"), avatarUrl := none
          pageAccessToken := some ("PAGE-TOKEN") } ∧
    FacebookPlatform.getAccount ⟨none, some []⟩ ⟨none, ("u1"), ("User"), none⟩ =
      Except.ok
        { platformAccountId := ("u1"), accountName := ("User") ++ (" (perfil)")
          accountType := ("profile"), avatarUrl := none, pageAccessToken := none } ∧
    InstagramPlatform.getAccount
        ⟨none, some [⟨("p1"), ("One"), none⟩, ⟨("p2"), ("Two"), some ⟨("ig2"), none, none⟩⟩]⟩ =
      Except.ok
        { platformAccountId := ("ig2"), accountName := ("Two")
          accountType := ("business"), avatarUrl := none, pageAccessToken := none } ∧
    InstagramPlatform.getAccount ⟨none, some [⟨("p1"), ("One"), none⟩]⟩ =
      Except.error ⟨("instagram"), igNoAccountMessage, none⟩ :=
  ⟨getAccount_resolution.1
      ⟨none, some [⟨("fp1"), ("My Page"), none, none, some ("PAGE-TOKEN")⟩]⟩
      ⟨none, ("u1"), ("User"), none⟩
      ⟨("fp1"), ("My Page"), none, none, some ("PAGE-TOKEN")⟩ rfl rfl,
    getAccount_resolution.2.1 _ _ rfl rfl rfl,
    getAccount_resolution.2.2.1 _ ⟨("p2"), ("Two"), some ⟨("ig2"), none, none⟩⟩
      ⟨("ig2"), none, none⟩ rfl rfl,
    getAccount_resolution.2.2.2 _ rfl rfl⟩

/-! ### Claim C6: the one retry without the shares field -/

/-- Claim C6, confirmed: when the social-engagement response carries an
error whose message includes nonexisting field, the query is reissued
exactly once with the shares field omitted — the request trace holds
exactly two social requests, the second with the no-shares field list — and
the final counts are built solely from the retry response or from zero
defaults, never from the erroring response (getPostMetrics is total, so no
error is ever carried into the result). -/
theorem shares_field_retry (postId : String) (ins : Except String InsightsResponse)
    (s1 : SocialResponse) (r2 : Except String SocialResponse) (e : ErrObj)
    (h1 : s1.error = some e)
    (h2 : strIncludes e.message ("nonexisting field") = true) :
    (FacebookPlatform.getPostMetrics postId ins (Except.ok s1) r2).2 =
      (fbInsightsPhase postId ins).2 ++
        [FBMetricsReq.social postId (fbFirstSocialFields postId),
          FBMetricsReq.social postId fieldsNoShares] ∧
    ((FacebookPlatform.getPostMetrics postId ins (Except.ok s1) r2).1.likes,
      (FacebookPlatform.getPostMetrics postId ins (Except.ok s1) r2).1.comments,
      (FacebookPlatform.getPostMetrics postId ins (Except.ok s1) r2).1.shares) =
      (match r2 with
        | Except.error _ => ((0 : ℚ), (0 : ℚ), (0 : ℚ))
        | Except.ok s2 => socialCounts s2) := by
  have hr : needsSharesRetry s1 = true := by simp [needsSharesRetry, h1, h2]
  cases r2 with
  | error msg =>
    exact ⟨by simp [FacebookPlatform.getPostMetrics, fbSocialPhase, hr],
      by simp [FacebookPlatform.getPostMetrics, fbSocialPhase, hr]⟩
  | ok s2 =>
    exact ⟨by simp [FacebookPlatform.getPostMetrics, fbSocialPhase, hr],
      by simp [FacebookPlatform.getPostMetrics, fbSocialPhase, hr]⟩

/-- Claim C6, witness at concrete inputs: a page post whose first social
query reports a nonexisting-field error and whose retry succeeds. -/
theorem shares_field_retry_witness :
    (FacebookPlatform.getPostMetrics ("10_20") (Except.error ("net"))
        (Except.ok ⟨some ⟨("Tried accessing nonexisting field (shares)"), some 100⟩,
          none, none, none⟩)
        (Except.ok ⟨none, some ⟨some ⟨some 3⟩⟩, some ⟨some ⟨some 2⟩⟩, none⟩)).2 =
      [FBMetricsReq.insights ("10_20"),
        FBMetricsReq.social ("10_20") fieldsWithShares,
        FBMetricsReq.social ("10_20") fieldsNoShares] ∧
    ((FacebookPlatform.getPostMetrics ("10_20") (Except.error ("net"))
        (Except.ok ⟨some ⟨("Tried accessing nonexisting field (shares)"), some 100⟩,
          none, none, none⟩)
        (Except.ok ⟨none, some ⟨some ⟨some 3⟩⟩, some ⟨some ⟨some 2⟩⟩, none⟩)).1.likes,
      (FacebookPlatform.getPostMetrics ("10_20") (Except.error ("net"))
        (Except.ok ⟨some ⟨("Tried accessing nonexisting field (shares)"), some 100⟩,
          none, none, none⟩)
        (Except.ok ⟨none, some ⟨some ⟨some 3⟩⟩, some ⟨some ⟨some 2⟩⟩, none⟩)).1.comments,
      (FacebookPlatform.getPostMetrics ("10_20") (Except.error ("net"))
        (Except.ok ⟨some ⟨("Tried accessing nonexisting field (shares)"), some 100⟩,
          none, none, none⟩)
        (Except.ok ⟨none, some ⟨some ⟨some 3⟩⟩, some ⟨some ⟨some 2⟩⟩, none⟩)).1.shares) =
      ((3 : ℚ), (2 : ℚ), (0 : ℚ)) :=
  have h := shares_field_retry ("10_20") (Except.error ("net"))
    ⟨some ⟨("Tried accessing nonexisting field (shares)"), some 100⟩, none, none, none⟩
    (Except.ok ⟨none, some ⟨some ⟨some 3⟩⟩, some ⟨some ⟨some 2⟩⟩, none⟩)
    ⟨("Tried accessing nonexisting field (shares)"), some 100⟩ rfl (by decide)
  ⟨h.1.trans (by decide), h.2.trans (by decide)⟩

/-! ### Claim C7: the interaction-sum fallback for impressions -/

/-- Claim C7, counterexample: the insights response carries a native
post_impressions value of 0, yet the returned impressions is the
interaction sum 5 — the fallback is keyed on the value being zero, not on
native impression data being absent, so the claim as stated is false. -/
theorem impressions_fallback_counterexample :
    metricsGet (buildMetrics [⟨("post_impressions"), InsightVal.num 0⟩]) ("post_impressions") =
      some 0 ∧
    (FacebookPlatform.getPostMetrics ("1_2")
        (Except.ok ⟨none, some [⟨("post_impressions"), InsightVal.num 0⟩]⟩)
        (Except.ok ⟨none, some ⟨some ⟨some 5⟩⟩, none, none⟩)
        (Except.error ("unused"))).1.impressions = 5 := by
  refine ⟨rfl, ?_⟩
  norm_num [FacebookPlatform.getPostMetrics, fbInsightsPhase, fbSocialPhase, needsSharesRetry,
    socialCounts, buildMetrics, metricsGet, insightValToNum, strIncludesChar, strIncludes,
    fbFirstSocialFields]

/-- Claim C7, amended: the fallback impressions value equals the sum
likes + comments + shares, and it is applied exactly when the impressions
value parsed from the insights phase is zero — whether natively reported as
zero or absent — and the interaction sum is positive; a nonzero parsed
impressions value is returned unchanged. -/
theorem impressions_fallback (postId : String) (ins : Except String InsightsResponse)
    (r1 r2 : Except String SocialResponse) :
    ((fbInsightsPhase postId ins).1.1 ≠ 0 →
      (FacebookPlatform.getPostMetrics postId ins r1 r2).1.impressions =
        (fbInsightsPhase postId ins).1.1) ∧
    ((fbInsightsPhase postId ins).1.1 = 0 →
      0 < (fbSocialPhase postId r1 r2).1.1 + (fbSocialPhase postId r1 r2).1.2.1 +
        (fbSocialPhase postId r1 r2).1.2.2 →
      (FacebookPlatform.getPostMetrics postId ins r1 r2).1.impressions =
        (fbSocialPhase postId r1 r2).1.1 + (fbSocialPhase postId r1 r2).1.2.1 +
          (fbSocialPhase postId r1 r2).1.2.2) ∧
    ((fbInsightsPhase postId ins).1.1 = 0 →
      ¬ 0 < (fbSocialPhase postId r1 r2).1.1 + (fbSocialPhase postId r1 r2).1.2.1 +
        (fbSocialPhase postId r1 r2).1.2.2 →
      (FacebookPlatform.getPostMetrics postId ins r1 r2).1.impressions = 0) := by
  refine ⟨?_, ?_, ?_⟩
  · intro h
    simp only [FacebookPlatform.getPostMetrics]
    rw [if_neg fun hc => h hc.1]
  · intro h ht
    simp only [FacebookPlatform.getPostMetrics]
    rw [if_pos ⟨h, ht⟩]
  · intro h ht
    simp only [FacebookPlatform.getPostMetrics]
    rw [if_neg fun hc => ht hc.2, h]

/-- Claim C7, witness at concrete inputs: a nonzero native value is kept;
with a zero native value and positive interactions the sum is used. -/
theorem impressions_fallback_witness :
    (FacebookPlatform.getPostMetrics ("1_2")
        (Except.ok ⟨none, some [⟨("post_impressions"), InsightVal.num 7⟩]⟩)
        (Except.ok ⟨none, some ⟨some ⟨some 5⟩⟩, none, none⟩)
        (Except.error ("unused"))).1.impressions =
      (fbInsightsPhase ("1_2")
        (Except.ok ⟨none, some [⟨("post_impressions"), InsightVal.num 7⟩]⟩)).1.1 ∧
    (FacebookPlatform.getPostMetrics ("9")
        (Except.error ("skipped"))
        (Except.ok ⟨none, some ⟨some ⟨some 4⟩⟩, some ⟨some ⟨some 1⟩⟩, none⟩)
        (Except.error ("unused"))).1.impressions =
      (fbSocialPhase ("9") (Except.ok ⟨none, some ⟨some ⟨some 4⟩⟩, some ⟨some ⟨some 1⟩⟩, none⟩)
          (Except.error ("unused"))).1.1 +
        (fbSocialPhase ("9") (Except.ok ⟨none, some ⟨some ⟨some 4⟩⟩, some ⟨some ⟨some 1⟩⟩, none⟩)
          (Except.error ("unused"))).1.2.1 +
        (fbSocialPhase ("9") (Except.ok ⟨none, some ⟨some ⟨some 4⟩⟩, some ⟨some ⟨some 1⟩⟩, none⟩)
          (Except.error ("unused"))).1.2.2 :=
  ⟨(impressions_fallback ("1_2")
      (Except.ok ⟨none, some [⟨("post_impressions"), InsightVal.num 7⟩]⟩)
      (Except.ok ⟨none, some ⟨some ⟨some 5⟩⟩, none, none⟩)
      (Except.error ("unused"))).1
      (by norm_num [fbInsightsPhase, buildMetrics, metricsGet, insightValToNum,
        strIncludesChar]),
    (impressions_fallback ("9") (Except.error ("skipped"))
      (Except.ok ⟨none, some ⟨some ⟨some 4⟩⟩, some ⟨some ⟨some 1⟩⟩, none⟩)
      (Except.error ("unused"))).2.1
      (by decide)
      (by norm_num [fbSocialPhase, needsSharesRetry, socialCounts, strIncludes,
        strIncludesChar, fbFirstSocialFields])⟩

/-! ### Claim C8: expiry of returned token pairs -/

/-- Claim C8, counterexample: a provider response whose expires_in hint is
0 yields a TokenPair whose expiresAt equals the call time exactly, so the
returned expiry is not strictly after the time of the call. -/
theorem token_expiry_counterexample :
    FacebookPlatform.refreshToken 0 ⟨none, some ("T"), some 0⟩ =
      Except.ok
        { accessToken := some ("T"), expiresAt := 0
          scopes := ["pages_manage_posts", "pages_read_engagement"] } ∧
    ¬ ((0 : Int) < 0) := by
  exact ⟨rfl, by decide⟩

/-- Claim C8, amended: for every successful token exchange on either
adapter, the returned expiresAt is strictly after the call time whenever
the provider's expires_in hint is positive or omitted, and when the hint is
omitted it is exactly the call time plus 60 days (5184000 seconds). -/
theorem token_expiry :
    (∀ (now : Int) (s l : TokenResponse) (tp : TokenPair),
        FacebookPlatform.handleCallback now s l = Except.ok tp →
        (l.expires_in = none → tp.expiresAt = now + 5184000 * 1000 ∧ now < tp.expiresAt) ∧
        (∀ e : Int, l.expires_in = some e → 0 < e → now < tp.expiresAt)) ∧
    (∀ (now : Int) (s l : TokenResponse) (tp : TokenPair),
        InstagramPlatform.handleCallback now s l = Except.ok tp →
        (l.expires_in = none → tp.expiresAt = now + 5184000 * 1000 ∧ now < tp.expiresAt) ∧
        (∀ e : Int, l.expires_in = some e → 0 < e → now < tp.expiresAt)) ∧
    (∀ (now : Int) (r : TokenResponse) (tp : TokenPair),
        FacebookPlatform.refreshToken now r = Except.ok tp →
        (r.expires_in = none → tp.expiresAt = now + 5184000 * 1000 ∧ now < tp.expiresAt) ∧
        (∀ e : Int, r.expires_in = some e → 0 < e → now < tp.expiresAt)) ∧
    (∀ (now : Int) (r : TokenResponse) (tp : TokenPair),
        InstagramPlatform.refreshToken now r = Except.ok tp →
        (r.expires_in = none → tp.expiresAt = now + 5184000 * 1000 ∧ now < tp.expiresAt) ∧
        (∀ e : Int, r.expires_in = some e → 0 < e → now < tp.expiresAt)) := by
  refine ⟨?_, ?_, ?_, ?_⟩
  · intro now s l tp h
    obtain ⟨ta, te, ts⟩ := tp
    cases hs : s.error with
    | some e => simp [FacebookPlatform.handleCallback, hs] at h
    | none =>
      cases hl : l.error with
      | some e => simp [FacebookPlatform.handleCallback, hs, hl] at h
      | none =>
        simp [FacebookPlatform.handleCallback, hs, hl, TokenPair.mk.injEq] at h
        obtain ⟨h1, h2, h3⟩ := h
        constructor
        · intro he
          rw [← h2, he]
          simp
        · intro e he hpos
          rw [← h2, he]
          simp
          omega
  · intro now s l tp h
    obtain ⟨ta, te, ts⟩ := tp
    cases hs : s.error with
    | some e => simp [InstagramPlatform.handleCallback, hs] at h
    | none =>
      simp [InstagramPlatform.handleCallback, hs, TokenPair.mk.injEq] at h
      obtain ⟨h1, h2, h3⟩ := h
      constructor
      · intro he
        rw [← h2, he]
        simp
      · intro e he hpos
        rw [← h2, he]
        simp
        omega
  · intro now r tp h
    obtain ⟨ta, te, ts⟩ := tp
    cases hs : r.error with
    | some e => simp [FacebookPlatform.refreshToken, hs] at h
    | none =>
      simp [FacebookPlatform.refreshToken, hs, TokenPair.mk.injEq] at h
      obtain ⟨h1, h2, h3⟩ := h
      constructor
      · intro he
        rw [← h2, he]
        simp
      · intro e he hpos
        rw [← h2, he]
        simp
        omega
  · intro now r tp h
    obtain ⟨ta, te, ts⟩ := tp
    cases hs : r.error with
    | some e => simp [InstagramPlatform.refreshToken, hs] at h
    | none =>
      simp [InstagramPlatform.refreshToken, hs, TokenPair.mk.injEq] at h
      obtain ⟨h1, h2, h3⟩ := h
      constructor
      · intro he
        rw [← h2, he]
        simp
      · intro e he hpos
        rw [← h2, he]
        simp
        omega

/-- Claim C8, witness for the amended theorem at concrete inputs. -/
theorem token_expiry_witness :
    ((⟨some ("L"), 10 + 5184000 * 1000,
        ["pages_manage_posts", "pages_read_engagement", "read_insights"]⟩ :
          TokenPair).expiresAt = 10 + 5184000 * 1000 ∧
      (10 : Int) < (⟨some ("L"), 10 + 5184000 * 1000,
        ["pages_manage_posts", "pages_read_engagement", "read_insights"]⟩ :
          TokenPair).expiresAt) ∧
    (3 : Int) < (⟨some ("R"), 3 + 600 * 1000,
      ["instagram_basic", "instagram_content_publish"]⟩ : TokenPair).expiresAt :=
  ⟨(token_expiry.1 10 ⟨none, some ("S"), none⟩ ⟨none, some ("L"), none⟩
        ⟨some ("L"), 10 + 5184000 * 1000,
          ["pages_manage_posts", "pages_read_engagement", "read_insights"]⟩ rfl).1 rfl,
    (token_expiry.2.2.2 3 ⟨none, some ("R"), some 600⟩
        ⟨some ("R"), 3 + 600 * 1000,
          ["instagram_basic", "instagram_content_publish"]⟩ rfl).2 600 rfl (by decide)⟩

/-! ### Claim C9: the engagement rate is computed, not vendor-supplied -/

/-- Claim C9, confirmed: on Facebook the engagement rate equals
engagedUsers / reach * 100 when reach is positive and 0 when it is not,
computed from the insights-phase values; on Instagram no engaged-users
metric is ever fetched, so its defaulted value igEngagedUsers = 0 makes the
same formula collapse to the hard-coded 0 the code returns. -/
theorem engagement_rate_computed (postId : String) (ins : Except String InsightsResponse)
    (r1 r2 : Except String SocialResponse) (resp : IGInsightsResponse) :
    (FacebookPlatform.getPostMetrics postId ins r1 r2).1.engagementRate =
      (if 0 < (FacebookPlatform.getPostMetrics postId ins r1 r2).1.reachUnique
        then (fbInsightsPhase postId ins).1.2.2 /
          (FacebookPlatform.getPostMetrics postId ins r1 r2).1.reachUnique * 100
        else 0) ∧
    (InstagramPlatform.getPostMetrics resp).engagementRate =
      (if 0 < (InstagramPlatform.getPostMetrics resp).reachUnique
        then igEngagedUsers / (InstagramPlatform.getPostMetrics resp).reachUnique * 100
        else 0) := by
  constructor
  · rfl
  · by_cases hr : 0 < (InstagramPlatform.getPostMetrics resp).reachUnique
    · rw [if_pos hr]
      simp [InstagramPlatform.getPostMetrics, igEngagedUsers]
    · rw [if_neg hr]
      rfl

/-! ### Claim C10: unrecognized media types fall through to the feed -/

/-- Claim C10, confirmed: when mediaUrl is present but mediaType is neither
image nor video, FacebookPlatform.publishContent routes the request to the
feed endpoint with a body holding only the rendered caption and the access
token — the supplied mediaUrl is silently omitted. -/
theorem feed_route_omits_media (accessToken : String) (content : PlatformContent)
    (u : String)
    (h1 : content.mediaUrl = some u)
    (h2 : content.mediaType ≠ some ("image"))
    (h3 : content.mediaType ≠ some ("video")) :
    FacebookPlatform.publishRequest accessToken content =
      (FBPublishEndpoint.feed (content.accountId.getD ("me")),
        [(("message"), renderCaption content), (("access_token"), accessToken)]) := by
  simp only [FacebookPlatform.publishRequest]
  rw [if_neg fun hc => h2 hc.2, if_neg fun hc => h3 hc.2]

/-- Claim C10, witness at a concrete input: a present media url with
mediaType gif is published to the feed without the url. -/
theorem feed_route_omits_media_witness :
    FacebookPlatform.publishRequest ("TOK")
        ⟨("hi"), [("launch")], some ("http://x/a.gif"), some ("gif"), some ("acct1")⟩ =
      (FBPublishEndpoint.feed
          (((some ("acct1")) : Option String).getD ("me")),
        [(("message"), renderCaption
            ⟨("hi"), [("launch")], some ("http://x/a.gif"), some ("gif"), some ("acct1")⟩),
          (("access_token"), ("TOK"))]) :=
  feed_route_omits_media ("TOK")
    ⟨("hi"), [("launch")], some ("http://x/a.gif"), some ("gif"), some ("acct1")⟩
    ("http://x/a.gif") rfl (by decide) (by decide)
